import Mathlib

/-!
# A shallow embedding of the `py2sqlite` query-string builder

Each Lean definition below embeds the function of the same name from
`py2sqlite/__init__.py`. Python dicts are modelled as association lists in
insertion order (which is the iteration order of a Python dict), tuples and
lists as Lean lists, and the exceptions raised inside `insert` as an
`Except` result. Machine-level caveats of the modelling are recorded on the
individual definitions.
-/

namespace Py2Sqlite

/-- A Python value occurring as a cell value in this library's calls: an
integer or a string. `pyRepr` below models CPython `repr` on these; for
strings we model only strings containing no quote, backslash or control
characters, for which `repr` is exactly the text wrapped in single quotes. -/
inductive PyVal where
  | int (n : Int)
  | str (s : String)
deriving DecidableEq

/-- CPython `repr` of a value (see `PyVal` for the string caveat);
`repr` of an integer is its decimal text, matching `toString : Int → String`. -/
def pyRepr : PyVal → String
  | .int n => toString n
  | .str s => "'" ++ s ++ "'"

/-- CPython `str` of a value, as used by f-string interpolation and the
`map(str, ...)` calls in `_generic`: decimal text for integers, the verbatim
text for strings. -/
def pyStr : PyVal → String
  | .int n => toString n
  | .str s => s

/-- Python `sep.join(entries)`. -/
def pyJoin (sep : String) : List String → String
  | [] => ""
  | [x] => x
  | x :: y :: xs => x ++ sep ++ pyJoin sep (y :: xs)

/-- Python slicing `s[:-n]` (character based; for `len(s) ≤ n` the result is
empty, as in Python). -/
def pySliceDrop (s : String) (n : Nat) : String :=
  ⟨(s.data.reverse.drop n).reverse⟩

/-- Python `s.rstrip()`: remove all trailing whitespace. (Python also strips
`\x0b`/`\x0c`, which `Char.isWhitespace` does not recognise; no claim below
involves those characters.) -/
def pyRstrip (s : String) : String :=
  ⟨(s.data.reverse.dropWhile Char.isWhitespace).reverse⟩

/-- An argument that Python allows to be either a single string or a
list/tuple of strings: `createTable` field specs and `addColumn` descriptor
args. -/
inductive StrOrSeq where
  | str (s : String)
  | seq (l : List String)

/-- The conversion `if isIter(args): args = " ".join(args)` applied by
`createTable` and `addColumn`: a sequence is joined with single spaces, a
plain string is kept as is. -/
def strOrSeqJoin : StrOrSeq → String
  | .str s => s
  | .seq l => pyJoin " " l

/-- The module constant `getTables`. -/
def getTables : String :=
  "SELECT name FROM sqlite_schema WHERE type='table' AND name NOT LIKE 'sqlite_%';"

/-- `createTable(name, fields)`: starting from `f"CREATE TABLE {name}("`, the
loop appends `f"{fName} {fArgs}, "` per field (space-joining sequence specs),
then `query[:-2]` slices off the last two characters and `");"` is appended. -/
def createTable (name : String) (fields : List (String × StrOrSeq)) : String :=
  let query := "CREATE TABLE " ++ name ++ "("
  let query := fields.foldl (fun q f => q ++ f.1 ++ " " ++ strOrSeqJoin f.2 ++ ", ") query
  pySliceDrop query 2 ++ ");"

/-- `addColumn(tableName, columnName, args)`. -/
def addColumn (tableName columnName : String) (args : StrOrSeq) : String :=
  "ALTER TABLE " ++ tableName ++ " ADD COLUMN '" ++ columnName ++ "' " ++
    strOrSeqJoin args ++ ";"

/-- `getColumns(name)`. -/
def getColumns (name : String) : String :=
  "PRAGMA TABLE_INFO(" ++ name ++ ");"

/-- The `values` argument of `insert`: a list/tuple of values, or a dict
modelled as an association list in insertion order. -/
inductive PyValues where
  | seq (vs : List PyVal)
  | map (kvs : List (String × PyVal))

/-- `isIter(arg)`: `True` for lists and tuples, `False` otherwise (dicts). -/
def isIter : PyValues → Bool
  | .seq _ => true
  | .map _ => false

/-- The `columns` argument of `insert`: `None`, a tuple, or a list. Tuples
and lists are distinguished because `columns` is used as a dictionary key in
`_insertDict1[columns]`: a tuple is hashable, a list is not. -/
inductive PyCols where
  | none
  | tup (l : List PyVal)
  | lst (l : List PyVal)

/-- The Python exceptions arising inside `insert`. -/
inductive PyErr where
  | keyError
  | typeError
deriving DecidableEq

/-- Iterating a `PyValues`: a sequence yields its elements and a dict yields
its keys, as Python iteration does. Used for `wrap(values)`. -/
def pyIter : PyValues → List PyVal
  | .seq vs => vs
  | .map kvs => kvs.map (fun kv => PyVal.str kv.1)

/-- `values.keys()` as `PyVal`s. A sequence has no `.keys()`; that branch is
unreachable because the dispatch sends only non-iterables (dicts) there. -/
def pyDictKeys : PyValues → List PyVal
  | .seq _ => []
  | .map kvs => kvs.map (fun kv => PyVal.str kv.1)

/-- `values.values()` as `PyVal`s (sequence branch unreachable, as for keys). -/
def pyDictValues : PyValues → List PyVal
  | .seq _ => []
  | .map kvs => kvs.map (fun kv => kv.2)

/-- The iterable contents of the `columns` argument. The `.none` branch is
unreachable at the use site: the KeyError handler runs only for keys other
than `None`. -/
def pyColsIter : PyCols → List PyVal
  | .none => []
  | .tup l => l
  | .lst l => l

/-- The `wrap` lambda of `insert`:
`lambda iterable: "(" + ", ".join(map(repr, iterable)) + ")"`. -/
def wrap (l : List PyVal) : String :=
  "(" ++ pyJoin ", " (l.map pyRepr) ++ ")"

/-- The lookup `_insertDict1[columns]` into `_insertDict1 = {None: isIter}`:
the key `None` is present and maps to `isIter`; a tuple key is hashable but
absent, raising KeyError; a list key is unhashable, raising TypeError. -/
def _insertDict1 : PyCols → Except PyErr (PyValues → Bool)
  | .none => .ok isIter
  | .tup _ => .error .keyError
  | .lst _ => .error .typeError

/-- `_insertDict2[b](wrap, values)` with the `wrap` lambda already fixed:
`True ↦ f"VALUES{wrap(values)}"` and
`False ↦ wrap(values.keys()) + " VALUES" + wrap(values.values())`. -/
def _insertDict2 (b : Bool) (values : PyValues) : String :=
  if b then "VALUES" ++ wrap (pyIter values)
  else wrap (pyDictKeys values) ++ " VALUES" ++ wrap (pyDictValues values)

/-- `insert(tableName, values, columns=None)`: the `try` body evaluates
`_insertDict2[(_insertDict1[columns](values))](wrap, values)`; the
`except KeyError` handler appends `f"{wrap(columns)} VALUES{wrap(values)}"`;
a TypeError from the unhashable-key lookup is not caught and propagates. -/
def insert (tableName : String) (values : PyValues) (columns : PyCols) :
    Except PyErr String :=
  let query := "INSERT INTO " ++ tableName ++ " "
  match _insertDict1 columns with
  | .ok f => .ok (query ++ _insertDict2 (f values) values ++ ";")
  | .error .keyError =>
      .ok (query ++ wrap (pyColsIter columns) ++ " VALUES" ++ wrap (pyIter values) ++ ";")
  | .error .typeError => .error .typeError

/-- The `attributes` local of `_generic`: a comma-joined `table.'col'` list
followed by a space when `columns` is truthy, else `"* "` for SELECT and
`""` otherwise. -/
def genAttributes (tableName mode : String) (columns : List String) : String :=
  if columns = [] then (if mode = "SELECT" then "* " else "")
  else pyJoin "," (columns.map (fun c => tableName ++ ".'" ++ c ++ "'")) ++ " "

/-- The `fromKeyword` local of `_generic`. -/
def genFrom (mode : String) : String :=
  if mode = "SELECT" ∨ mode = "DELETE" then "FROM " else ""

/-- The `sets` local of `_generic`: only in UPDATE mode, the values mapping
rendered as `k=str(v)` pairs joined with `","` and followed by a space. -/
def genSets (mode : String) (values : List (String × PyVal)) : String :=
  if mode = "UPDATE" then
    "SET " ++ pyJoin "," (values.map (fun kv => kv.1 ++ "=" ++ pyStr kv.2)) ++ " "
  else ""

/-- The `wheres` local of `_generic`: present when `conditions` is truthy
(`None` and the empty dict are both falsy, modelled as `[]`). -/
def genWheres (conditions : List (String × PyVal)) : String :=
  if conditions = [] then ""
  else "WHERE " ++ pyJoin " AND " (conditions.map (fun kv => kv.1 ++ "=" ++ pyStr kv.2)) ++ " "

/-- The `order` local of `_generic`; `None` and `""` are both falsy,
modelled as `""`. -/
def genOrder (orderBy : String) : String :=
  if orderBy = "" then "" else "ORDER BY " ++ orderBy ++ " "

/-- The `desc` local of `_generic`. -/
def genDesc (desc : Bool) : String :=
  if desc then "DESC " else ""

/-- The `limit` local of `_generic`; `None` and `0` are both falsy. -/
def genLimit (limit : Option Int) : String :=
  match limit with
  | Option.none => ""
  | Option.some n => if n = 0 then "" else "LIMIT " ++ toString n ++ " "

/-- The `offset` local of `_generic`; `None` and `0` are both falsy. -/
def genOffset (offset : Option Int) : String :=
  match offset with
  | Option.none => ""
  | Option.some n => if n = 0 then "" else "OFFSET " ++ toString n ++ " "

/-- `_generic(tableName, mode, conditions, orderBy, limit, offset, desc, *,
columns, values)`: assembles
`f"{mode} {attributes}{fromKeyword}{tableName} {sets}{wheres}{order}{desc}{limit}{offset}"`
and returns `query.rstrip() + ";"`. `conditions=None` and `columns=None`
behave exactly like the empty dict/tuple (only truthiness and iteration are
applied to them), so both are modelled as `[]`; likewise `desc=None` is
modelled as `false`. -/
def _generic (tableName mode : String) (conditions : List (String × PyVal))
    (orderBy : String) (limit offset : Option Int) (desc : Bool)
    (columns : List String) (values : List (String × PyVal)) : String :=
  pyRstrip (mode ++ " " ++ genAttributes tableName mode columns ++ genFrom mode ++
    tableName ++ " " ++ genSets mode values ++ genWheres conditions ++
    genOrder orderBy ++ genDesc desc ++ genLimit limit ++ genOffset offset) ++ ";"

/-- `update(tableName, values, conditions, orderBy, limit, offset, desc)`. -/
def update (tableName : String) (values : List (String × PyVal))
    (conditions : List (String × PyVal)) (orderBy : String)
    (limit offset : Option Int) (desc : Bool) : String :=
  _generic tableName "UPDATE" conditions orderBy limit offset desc [] values

/-- `select(tableName, conditions, columns, orderBy, limit, offset, desc)`. -/
def select (tableName : String) (conditions : List (String × PyVal))
    (columns : List String) (orderBy : String)
    (limit offset : Option Int) (desc : Bool) : String :=
  _generic tableName "SELECT" conditions orderBy limit offset desc columns []

/-- `delete(tableName, conditions, orderBy, limit, offset, desc)`. -/
def delete (tableName : String) (conditions : List (String × PyVal))
    (orderBy : String) (limit offset : Option Int) (desc : Bool) : String :=
  _generic tableName "DELETE" conditions orderBy limit offset desc [] []

/-- The string ends in exactly one semicolon with no whitespace immediately
before it (a lone `";"` qualifies: nothing at all precedes the semicolon). -/
def endsWithOneSemi (s : String) : Bool :=
  match s.data.reverse with
  | [] => false
  | c :: rest =>
    if c = ';' then
      match rest with
      | [] => true
      | d :: _ => !d.isWhitespace && !(d = ';')
    else false

/-- The string contains no semicolon character. -/
@[reducible] def noSemi (s : String) : Prop := ';' ∉ s.data

/-- The string is nonempty and its final character is neither whitespace nor
a semicolon. -/
def cleanTail (s : String) : Bool :=
  match s.data.reverse with
  | [] => false
  | c :: _ => !c.isWhitespace && !(c = ';')

/-! ## General helper lemmas -/

theorem noSemi_append {a b : String} (ha : noSemi a) (hb : noSemi b) :
    noSemi (a ++ b) := by
  intro hc
  rw [String.data_append] at hc
  rcases List.mem_append.mp hc with h | h
  exacts [ha h, hb h]

theorem noSemi_pyJoin {sep : String} (hs : noSemi sep) :
    ∀ {l : List String}, (∀ x ∈ l, noSemi x) → noSemi (pyJoin sep l) := by
  intro l
  induction l with
  | nil => intro _; intro hc; exact absurd hc (List.not_mem_nil _)
  | cons x xs ih =>
    intro h
    cases xs with
    | nil => exact h x (List.mem_singleton.mpr rfl)
    | cons y ys =>
      show noSemi (x ++ sep ++ pyJoin sep (y :: ys))
      exact noSemi_append (noSemi_append (h x (by simp)) hs)
        (ih (fun z hz => h z (List.mem_cons_of_mem _ hz)))

theorem digitChar_ne_semi (n : Nat) : Nat.digitChar n ≠ ';' := by
  rcases Nat.lt_or_ge n 16 with h16 | h16
  · interval_cases n <;> decide
  · have h : Nat.digitChar n = '*' := by
      unfold Nat.digitChar
      repeat rw [if_neg (by omega)]
    rw [h]; decide

theorem toDigitsCore_no_semi (b : Nat) : ∀ (fuel n : Nat) (ds : List Char),
    (';' ∉ ds) → ';' ∉ Nat.toDigitsCore b fuel n ds := by
  intro fuel
  induction fuel with
  | zero => intro n ds h; simpa [Nat.toDigitsCore] using h
  | succ f ih =>
    intro n ds h
    rw [Nat.toDigitsCore]
    split
    · intro hc
      rcases List.mem_cons.mp hc with h1 | h2
      · exact digitChar_ne_semi (n % b) h1.symm
      · exact h h2
    · apply ih
      intro hc
      rcases List.mem_cons.mp hc with h1 | h2
      · exact digitChar_ne_semi (n % b) h1.symm
      · exact h h2

theorem noSemi_toString_int (n : Int) : noSemi (toString n) := by
  show ';' ∉ (Int.repr n).data
  cases n with
  | ofNat m =>
    show ';' ∉ (Nat.repr m).data
    have hd : (Nat.repr m).data = Nat.toDigitsCore 10 (m + 1) m [] := rfl
    rw [hd]
    exact toDigitsCore_no_semi 10 (m + 1) m [] (by simp)
  | negSucc m =>
    show ';' ∉ ("-" ++ Nat.repr (m + 1)).data
    rw [String.data_append]
    intro hc
    rcases List.mem_append.mp hc with h1 | h2
    · exact absurd h1 (by decide)
    · have hd : (Nat.repr (m + 1)).data = Nat.toDigitsCore 10 ((m + 1) + 1) (m + 1) [] := rfl
      rw [hd] at h2
      exact toDigitsCore_no_semi 10 ((m + 1) + 1) (m + 1) [] (by simp) h2

theorem dropWhile_head_false {p : Char → Bool} :
    ∀ {l : List Char} {c : Char} {cs : List Char},
      l.dropWhile p = c :: cs → p c = false := by
  intro l
  induction l with
  | nil => intro c cs h; simp [List.dropWhile] at h
  | cons a as ih =>
    intro c cs h
    rw [List.dropWhile_cons] at h
    split at h
    · exact ih h
    · cases h
      rename_i hpa
      simpa using hpa

/-! ## Claim C7 -/

/-- C7: for every table name, column name and sequence of descriptor tokens,
`addColumn` on the sequence and `addColumn` on the single-space-join of the
sequence return the identical string; in particular both
`addColumn("t", "c", "INT DEFAULT 0")` and
`addColumn("t", "c", ["INT", "DEFAULT 0"])` return
`ALTER TABLE t ADD COLUMN 'c' INT DEFAULT 0;`. -/
theorem addColumn_seq_matches_joined_string :
    (∀ (t c : String) (l : List String),
      addColumn t c (.seq l) = addColumn t c (.str (pyJoin " " l)))
    ∧ addColumn "t" "c" (.str "INT DEFAULT 0") =
        "ALTER TABLE t ADD COLUMN 'c' INT DEFAULT 0;"
    ∧ addColumn "t" "c" (.seq ["INT", "DEFAULT 0"]) =
        "ALTER TABLE t ADD COLUMN 'c' INT DEFAULT 0;" :=
  ⟨fun _ _ _ => rfl, by decide, by decide⟩

/-! ## Claim C10 -/

/-- C10: `insert` called with `columns` a list fails with an uncaught
TypeError (the dispatch dictionary lookup uses `columns` as a key, lists are
unhashable, and only KeyError is handled), while the same columns contents
given as a tuple produce a result string. -/
theorem insert_list_columns_raises_type_error :
    (∀ (t : String) (v : PyValues) (l : List PyVal),
      insert t v (.lst l) = .error .typeError)
    ∧ (∀ (t : String) (v : PyValues) (l : List PyVal),
      ∃ s : String, insert t v (.tup l) = .ok s) :=
  ⟨fun _ _ _ => rfl, fun _ _ _ => ⟨_, rfl⟩⟩

/-! ## Claim C1 -/

/-- C1 (counterexample): the claim says a truthy `columns` yields
`INSERT INTO <t> VALUES(...)` built from the columns contents with `values`
ignored and no column-name list emitted; in fact
`insert("t", (1,), columns=("id",))` yields
`INSERT INTO t ('id') VALUES(1);` — a parenthesized (repr-quoted) columns
list is emitted and `values` supplies the VALUES tuple. -/
theorem insert_tuple_columns_claim_refuted :
    insert "t" (.seq [.int 1]) (.tup [.str "id"]) =
      .ok "INSERT INTO t ('id') VALUES(1);"
    ∧ insert "t" (.seq [.int 1]) (.tup [.str "id"]) ≠
      .ok "INSERT INTO t VALUES('id');" :=
  ⟨rfl, fun h => absurd (Except.ok.inj h) (by decide)⟩

/-- C1 (amended): for every table name and tuple-valued (truthy, hashable)
`columns` argument, the KeyError fallback emits
`INSERT INTO <t> (<repr c1>, ...) VALUES(<repr v1>, ...);` — the columns
contents appear literal-repr'd as a parenthesized list before `VALUES`, and
the `values` argument (its elements for a sequence, its keys for a dict) is
not ignored: it supplies the VALUES tuple. -/
theorem insert_tuple_columns_emits_both_lists :
    ∀ (t : String) (values : PyValues) (l : List PyVal),
      insert t values (.tup l) =
        .ok ("INSERT INTO " ++ t ++ " (" ++ pyJoin ", " (l.map pyRepr) ++
          ") VALUES(" ++ pyJoin ", " ((pyIter values).map pyRepr) ++ ");") := by
  intro t values l
  simp only [insert, _insertDict1, pyColsIter, wrap]
  congr 1
  apply String.ext
  simp [String.data_append, List.append_assoc]

/-! ## Claim C2 -/

/-- C2 (counterexample): the claim says dict keys are emitted bare, so that
`insert("t", {"id": 1, "name": "a"})` returns
`INSERT INTO t (id, name) VALUES(1, 'a');`; in fact the keys pass through
`repr` like the values, so the call returns
`INSERT INTO t ('id', 'name') VALUES(1, 'a');`. -/
theorem insert_dict_bare_keys_claim_refuted :
    insert "t" (.map [("id", .int 1), ("name", .str "a")]) .none =
      .ok "INSERT INTO t ('id', 'name') VALUES(1, 'a');"
    ∧ insert "t" (.map [("id", .int 1), ("name", .str "a")]) .none ≠
      .ok "INSERT INTO t (id, name) VALUES(1, 'a');" :=
  ⟨rfl, fun h => absurd (Except.ok.inj h) (by decide)⟩

/-- C2 (amended): for every mapping passed as `values` with `columns`
omitted, `insert` emits
`INSERT INTO <t> (<repr k1>, ...) VALUES(<repr v1>, ...);` in mapping
iteration order, keys and values both literal-repr converted (so string keys
are quoted too); in particular `insert("t", {"id": 1, "name": "a"})` returns
exactly `INSERT INTO t ('id', 'name') VALUES(1, 'a');`. -/
theorem insert_dict_emits_reprd_keys_and_values :
    (∀ (t : String) (kvs : List (String × PyVal)),
      insert t (.map kvs) .none =
        .ok ("INSERT INTO " ++ t ++ " (" ++
          pyJoin ", " (kvs.map (fun kv => pyRepr (PyVal.str kv.1))) ++
          ") VALUES(" ++ pyJoin ", " (kvs.map (fun kv => pyRepr kv.2)) ++ ");"))
    ∧ insert "t" (.map [("id", .int 1), ("name", .str "a")]) .none =
      .ok "INSERT INTO t ('id', 'name') VALUES(1, 'a');" := by
  constructor
  · intro t kvs
    simp only [insert, _insertDict1, isIter, _insertDict2, pyDictKeys,
      pyDictValues, wrap, List.map_map, Bool.false_eq_true, if_false,
      Function.comp_def]
    congr 1
    apply String.ext
    simp [String.data_append, List.append_assoc, Function.comp_def]
  · rfl

/-! ## createTable helper lemmas -/

theorem createTable_foldl :
    ∀ (fields : List (String × StrOrSeq)) (q0 : String), fields ≠ [] →
      fields.foldl (fun q f => q ++ f.1 ++ " " ++ strOrSeqJoin f.2 ++ ", ") q0 =
        q0 ++ pyJoin ", " (fields.map (fun f => f.1 ++ " " ++ strOrSeqJoin f.2)) ++ ", " := by
  intro fields
  induction fields with
  | nil => intro q0 h; exact absurd rfl h
  | cons x xs ih =>
    intro q0 _
    cases xs with
    | nil =>
      apply String.ext
      simp [pyJoin, String.data_append, List.append_assoc]
    | cons y ys =>
      rw [List.foldl_cons, ih _ (by simp)]
      apply String.ext
      simp [pyJoin, String.data_append, List.append_assoc]

theorem pySliceDrop_append_sep (x : String) : pySliceDrop (x ++ ", ") 2 = x := by
  apply String.ext
  show ((x ++ ", ").data.reverse.drop 2).reverse = x.data
  rw [String.data_append]
  have h : (", " : String).data = [',', ' '] := rfl
  rw [h]
  simp [List.reverse_append]

/-! ## Claim C3 -/

/-- C3: for every non-empty field mapping, `createTable(name, fields)`
returns `CREATE TABLE <name>(` followed by one `<col> <spec>` entry per
mapping entry, comma-separated in mapping iteration order with no trailing
comma, followed by `);`; a field specification given as a sequence of
tokens is first joined with single spaces. -/
theorem createTable_nonempty_entry_list :
    ∀ (name : String) (fields : List (String × StrOrSeq)), fields ≠ [] →
      createTable name fields =
        "CREATE TABLE " ++ name ++ "(" ++
          pyJoin ", " (fields.map (fun f => f.1 ++ " " ++ strOrSeqJoin f.2)) ++ ");" := by
  intro name fields h
  simp only [createTable]
  rw [createTable_foldl fields _ h, pySliceDrop_append_sep]

/-- C3 (witness): the theorem applied to a concrete one-field table. -/
theorem createTable_nonempty_entry_list_witness :
    ([(("ID" : String), StrOrSeq.str "INT")] ≠ []) ∧
    createTable "t" [("ID", StrOrSeq.str "INT")] =
      "CREATE TABLE " ++ "t" ++ "(" ++
        pyJoin ", "
          ([(("ID" : String), StrOrSeq.str "INT")].map
            (fun f => f.1 ++ " " ++ strOrSeqJoin f.2)) ++ ");" :=
  ⟨List.cons_ne_nil _ _,
   createTable_nonempty_entry_list "t" _ (List.cons_ne_nil _ _)⟩

/-! ## Claim C9 -/

/-- C9 (counterexample): the claim says `createTable` on an empty field
mapping returns exactly `CREATE TABL);`; in fact the `[:-2]` slice removes
the opening parenthesis and the last character of the table NAME, so
`createTable("t", {})` returns `CREATE TABLE );` (with the space kept), not
`CREATE TABL);`. -/
theorem createTable_empty_fields_claim_refuted :
    createTable "t" [] = "CREATE TABLE );"
    ∧ createTable "t" [] ≠ "CREATE TABL);" :=
  ⟨by decide, by decide⟩

/-- C9 (amended): `createTable` on an empty field mapping does not raise;
the trailing-separator slice removes the last two characters of the
already-built prefix `CREATE TABLE <name>(`, i.e. the opening parenthesis
and the final character of the table name, so for every nonempty name the
result is `CREATE TABLE <name-minus-last-char>);` — e.g.
`createTable("t", {})` returns `CREATE TABLE );`. -/
theorem createTable_empty_fields_truncates_name :
    ∀ name : String, 0 < name.length →
      createTable name [] = "CREATE TABLE " ++ pySliceDrop name 1 ++ ");" := by
  intro name h
  have hlen : name.data ≠ [] := by
    intro hd
    rw [String.length] at h
    simp [hd] at h
  obtain ⟨c, cs, hc⟩ : ∃ c cs, name.data.reverse = c :: cs := by
    cases hr : name.data.reverse with
    | nil =>
      exact absurd (by simpa using congrArg List.reverse hr) hlen
    | cons c cs => exact ⟨c, cs, rfl⟩
  simp only [createTable, List.foldl]
  congr 1
  apply String.ext
  simp [pySliceDrop, String.data_append, List.reverse_append, hc]

/-- C9 (witness): the amended theorem applied at name `"t"`. -/
theorem createTable_empty_fields_truncates_name_witness :
    0 < ("t" : String).length
    ∧ createTable "t" [] = "CREATE TABLE " ++ pySliceDrop "t" 1 ++ ");" :=
  ⟨by decide, createTable_empty_fields_truncates_name "t" (by decide)⟩

/-! ## Claim C5 -/

/-- C5: every `update` call produces a query with no FROM keyword emitted
(the assembler's fromKeyword piece is empty in UPDATE mode, so the output
is built solely from the mode, table name, SET, WHERE, ORDER BY, DESC,
LIMIT and OFFSET pieces) and a SET clause built from the values mapping in
iteration order with plain string conversion of each value (no literal-repr
quoting); in particular `update("t", {"salary": 100}, {"id": 23})` returns
exactly `UPDATE t SET salary=100 WHERE id=23;`. -/
theorem update_omits_from_and_builds_set :
    (∀ (t : String) (vs cs : List (String × PyVal)) (ob : String)
        (lim off : Option Int) (d : Bool),
      update t vs cs ob lim off d =
        pyRstrip ("UPDATE " ++ t ++ " " ++ genSets "UPDATE" vs ++ genWheres cs ++
          genOrder ob ++ genDesc d ++ genLimit lim ++ genOffset off) ++ ";")
    ∧ genFrom "UPDATE" = ""
    ∧ (∀ vs : List (String × PyVal), genSets "UPDATE" vs =
        "SET " ++ pyJoin "," (vs.map (fun kv => kv.1 ++ "=" ++ pyStr kv.2)) ++ " ")
    ∧ update "t" [("salary", .int 100)] [("id", .int 23)] "" Option.none Option.none false =
        "UPDATE t SET salary=100 WHERE id=23;" := by
  refine ⟨?_, rfl, fun vs => rfl, by decide⟩
  intro t vs cs ob lim off d
  have h : ("UPDATE" ++ " " ++ genAttributes t "UPDATE" [] ++ genFrom "UPDATE" ++
      t ++ " " ++ genSets "UPDATE" vs ++ genWheres cs ++ genOrder ob ++
      genDesc d ++ genLimit lim ++ genOffset off : String) =
      "UPDATE " ++ t ++ " " ++ genSets "UPDATE" vs ++ genWheres cs ++
      genOrder ob ++ genDesc d ++ genLimit lim ++ genOffset off := by
    have ha : genAttributes t "UPDATE" [] = "" := rfl
    have hf : genFrom "UPDATE" = "" := rfl
    rw [ha, hf]
    apply String.ext
    simp [String.data_append, List.append_assoc]
  show pyRstrip ("UPDATE" ++ " " ++ genAttributes t "UPDATE" [] ++ genFrom "UPDATE" ++
      t ++ " " ++ genSets "UPDATE" vs ++ genWheres cs ++ genOrder ob ++
      genDesc d ++ genLimit lim ++ genOffset off) ++ ";" = _
  rw [h]

/-! ## Claim C8 -/

/-- C8: for select, update and delete, passing `limit=0` or `offset=0`
produces output identical to omitting the argument (falsy-zero suppression),
while any nonzero (truthy) limit or offset is rendered as its
`LIMIT <n> ` / `OFFSET <n> ` piece. -/
theorem zero_limit_offset_suppressed :
    (∀ (t : String) (cs : List (String × PyVal)) (cols : List String)
        (ob : String) (off : Option Int) (d : Bool),
      select t cs cols ob (Option.some 0) off d = select t cs cols ob Option.none off d)
    ∧ (∀ (t : String) (cs : List (String × PyVal)) (cols : List String)
        (ob : String) (lim : Option Int) (d : Bool),
      select t cs cols ob lim (Option.some 0) d = select t cs cols ob lim Option.none d)
    ∧ (∀ (t : String) (vs cs : List (String × PyVal)) (ob : String)
        (off : Option Int) (d : Bool),
      update t vs cs ob (Option.some 0) off d = update t vs cs ob Option.none off d)
    ∧ (∀ (t : String) (vs cs : List (String × PyVal)) (ob : String)
        (lim : Option Int) (d : Bool),
      update t vs cs ob lim (Option.some 0) d = update t vs cs ob lim Option.none d)
    ∧ (∀ (t : String) (cs : List (String × PyVal)) (ob : String)
        (off : Option Int) (d : Bool),
      delete t cs ob (Option.some 0) off d = delete t cs ob Option.none off d)
    ∧ (∀ (t : String) (cs : List (String × PyVal)) (ob : String)
        (lim : Option Int) (d : Bool),
      delete t cs ob lim (Option.some 0) d = delete t cs ob lim Option.none d)
    ∧ (∀ n : Int, n ≠ 0 → genLimit (Option.some n) = "LIMIT " ++ toString n ++ " ")
    ∧ (∀ n : Int, n ≠ 0 → genOffset (Option.some n) = "OFFSET " ++ toString n ++ " ") := by
  refine ⟨fun _ _ _ _ _ _ => rfl, fun _ _ _ _ _ _ => rfl, fun _ _ _ _ _ _ => rfl,
    fun _ _ _ _ _ _ => rfl, fun _ _ _ _ _ => rfl, fun _ _ _ _ _ => rfl, ?_, ?_⟩
  · intro n h
    show (if n = 0 then "" else "LIMIT " ++ toString n ++ " ") = _
    rw [if_neg h]
  · intro n h
    show (if n = 0 then "" else "OFFSET " ++ toString n ++ " ") = _
    rw [if_neg h]

/-- C8 (witness): the truthy branches applied at limit 1 and offset 2. -/
theorem zero_limit_offset_suppressed_witness :
    ((1 : Int) ≠ 0 ∧ genLimit (Option.some 1) = "LIMIT " ++ toString (1 : Int) ++ " ")
    ∧ ((2 : Int) ≠ 0 ∧ genOffset (Option.some 2) = "OFFSET " ++ toString (2 : Int) ++ " ") :=
  ⟨⟨by decide, zero_limit_offset_suppressed.2.2.2.2.2.2.1 1 (by decide)⟩,
   ⟨by decide, zero_limit_offset_suppressed.2.2.2.2.2.2.2 2 (by decide)⟩⟩

/-! ## DESC helper lemmas -/

theorem pyRstrip_around_desc (s t : String) :
    ∃ r : String, pyRstrip (s ++ "DESC " ++ t) = s ++ "DESC" ++ r := by
  by_cases h : (t.data.reverse.dropWhile Char.isWhitespace).isEmpty = true
  · refine ⟨"", ?_⟩
    apply String.ext
    show ((s ++ "DESC " ++ t).data.reverse.dropWhile Char.isWhitespace).reverse = _
    simp [String.data_append, List.reverse_append, List.dropWhile_append, h,
      List.dropWhile_cons]
  · refine ⟨" " ++ pyRstrip t, ?_⟩
    apply String.ext
    show ((s ++ "DESC " ++ t).data.reverse.dropWhile Char.isWhitespace).reverse = _
    simp [pyRstrip, String.data_append, List.reverse_append, List.dropWhile_append, h,
      List.dropWhile_cons, List.append_assoc]

/-- A string of the form `a ++ " "`. -/
def endsSp (s : String) : Prop := ∃ a : String, s = a ++ " "

theorem endsSp_append_sp (x : String) : endsSp (x ++ " ") := ⟨x, rfl⟩

theorem endsSp_append {a b : String} (ha : endsSp a) (hb : b = "" ∨ endsSp b) :
    endsSp (a ++ b) := by
  rcases hb with rfl | ⟨c, rfl⟩
  · rw [String.append_empty]; exact ha
  · exact ⟨a ++ c, (String.append_assoc a c " ").symm⟩

theorem genSets_empty_or_sp (mode : String) (vs : List (String × PyVal)) :
    genSets mode vs = "" ∨ endsSp (genSets mode vs) := by
  unfold genSets
  split
  · exact Or.inr ⟨_, rfl⟩
  · exact Or.inl rfl

theorem genWheres_empty_or_sp (cs : List (String × PyVal)) :
    genWheres cs = "" ∨ endsSp (genWheres cs) := by
  unfold genWheres
  split
  · exact Or.inl rfl
  · exact Or.inr ⟨_, rfl⟩

theorem genOrder_empty_or_sp (ob : String) :
    genOrder ob = "" ∨ endsSp (genOrder ob) := by
  unfold genOrder
  split
  · exact Or.inl rfl
  · exact Or.inr ⟨_, rfl⟩

theorem generic_prefix_endsSp (t mode ob : String) (cs vals : List (String × PyVal))
    (cols : List String) :
    endsSp (mode ++ " " ++ genAttributes t mode cols ++ genFrom mode ++ t ++ " " ++
      genSets mode vals ++ genWheres cs ++ genOrder ob) :=
  endsSp_append
    (endsSp_append
      (endsSp_append (endsSp_append_sp _) (genSets_empty_or_sp mode vals))
      (genWheres_empty_or_sp cs))
    (genOrder_empty_or_sp ob)

theorem generic_desc_appears (t mode : String) (cs : List (String × PyVal))
    (ob : String) (lim off : Option Int) (cols : List String)
    (vals : List (String × PyVal)) :
    ∃ a b : String, _generic t mode cs ob lim off true cols vals = a ++ " DESC" ++ b := by
  have hassoc : (mode ++ " " ++ genAttributes t mode cols ++ genFrom mode ++ t ++ " " ++
      genSets mode vals ++ genWheres cs ++ genOrder ob ++ genDesc true ++
      genLimit lim ++ genOffset off : String) =
      (mode ++ " " ++ genAttributes t mode cols ++ genFrom mode ++ t ++ " " ++
        genSets mode vals ++ genWheres cs ++ genOrder ob) ++ "DESC " ++
        (genLimit lim ++ genOffset off) := by
    have hd : genDesc true = "DESC " := rfl
    rw [hd]
    apply String.ext
    simp [String.data_append, List.append_assoc]
  obtain ⟨p, hp⟩ := generic_prefix_endsSp t mode ob cs vals cols
  obtain ⟨r, hr⟩ := pyRstrip_around_desc
    (mode ++ " " ++ genAttributes t mode cols ++ genFrom mode ++ t ++ " " ++
      genSets mode vals ++ genWheres cs ++ genOrder ob)
    (genLimit lim ++ genOffset off)
  refine ⟨p, r ++ ";", ?_⟩
  show pyRstrip (mode ++ " " ++ genAttributes t mode cols ++ genFrom mode ++ t ++ " " ++
      genSets mode vals ++ genWheres cs ++ genOrder ob ++ genDesc true ++
      genLimit lim ++ genOffset off) ++ ";" = _
  rw [hassoc, hr, hp]
  apply String.ext
  simp [String.data_append, List.append_assoc]

/-! ## Claim C6 -/

/-- C6: for every select, update or delete call with `desc` true, the token
DESC appears space-separated in the output regardless of whether `orderBy`
was given; in particular `delete("t", {"id": 23}, limit=1, desc=True)`
returns exactly `DELETE FROM t WHERE id=23 DESC LIMIT 1;`. -/
theorem desc_token_emitted_without_order_by :
    (∀ (t : String) (cs : List (String × PyVal)) (cols : List String)
        (ob : String) (lim off : Option Int),
      ∃ a b : String, select t cs cols ob lim off true = a ++ " DESC" ++ b)
    ∧ (∀ (t : String) (vs cs : List (String × PyVal)) (ob : String)
        (lim off : Option Int),
      ∃ a b : String, update t vs cs ob lim off true = a ++ " DESC" ++ b)
    ∧ (∀ (t : String) (cs : List (String × PyVal)) (ob : String)
        (lim off : Option Int),
      ∃ a b : String, delete t cs ob lim off true = a ++ " DESC" ++ b)
    ∧ delete "t" [("id", .int 23)] "" (Option.some 1) Option.none true =
        "DELETE FROM t WHERE id=23 DESC LIMIT 1;" :=
  ⟨fun t cs cols ob lim off => generic_desc_appears t "SELECT" cs ob lim off cols [],
   fun t vs cs ob lim off => generic_desc_appears t "UPDATE" cs ob lim off [] vs,
   fun t cs ob lim off => generic_desc_appears t "DELETE" cs ob lim off [] [],
   by decide⟩

/-! ## Semicolon-invariant helper lemmas -/

theorem endsWithOneSemi_of_shape {s : String} {d : Char} {rest : List Char}
    (h : s.data.reverse = ';' :: d :: rest)
    (h1 : d.isWhitespace = false) (h2 : ¬ d = ';') :
    endsWithOneSemi s = true := by
  unfold endsWithOneSemi
  rw [h]
  simp [h1, h2]

theorem endsWithOneSemi_of_lone {s : String} (h : s.data.reverse = [';']) :
    endsWithOneSemi s = true := by
  unfold endsWithOneSemi
  rw [h]
  decide

theorem endsWithOneSemi_close_paren (x : String) :
    endsWithOneSemi (x ++ ");") = true := by
  have h : (x ++ ");").data.reverse = ';' :: ')' :: x.data.reverse := by
    simp [String.data_append, List.reverse_append]
  exact endsWithOneSemi_of_shape h (by decide) (by decide)

theorem endsWithOneSemi_rstrip (q : String) (hq : noSemi q) :
    endsWithOneSemi (pyRstrip q ++ ";") = true := by
  have hdata : (pyRstrip q ++ ";").data.reverse =
      ';' :: q.data.reverse.dropWhile Char.isWhitespace := by
    simp [pyRstrip, String.data_append, List.reverse_append]
  cases hdw : q.data.reverse.dropWhile Char.isWhitespace with
  | nil =>
    apply endsWithOneSemi_of_lone
    rw [hdata, hdw]
  | cons d rest =>
    have h1 : d.isWhitespace = false := dropWhile_head_false hdw
    have h2 : ¬ d = ';' := by
      intro hd
      subst hd
      have hmem : (';' : Char) ∈ q.data.reverse :=
        (List.dropWhile_sublist Char.isWhitespace).subset
          (by rw [hdw]; exact List.mem_cons_self _ _)
      exact hq (List.mem_reverse.mp hmem)
    exact endsWithOneSemi_of_shape (by rw [hdata, hdw]) h1 h2

theorem noSemi_genAttributes (t mode : String) (cols : List String)
    (ht : noSemi t) (hc : ∀ c ∈ cols, noSemi c) :
    noSemi (genAttributes t mode cols) := by
  unfold genAttributes
  split
  · split
    · decide
    · decide
  · refine noSemi_append (noSemi_pyJoin (by decide) ?_) (by decide)
    intro x hx
    rcases List.mem_map.mp hx with ⟨c, hcm, rfl⟩
    exact noSemi_append (noSemi_append (noSemi_append ht (by decide)) (hc c hcm))
      (by decide)

theorem noSemi_genFrom (mode : String) : noSemi (genFrom mode) := by
  unfold genFrom
  split
  · decide
  · decide

theorem noSemi_genSets (mode : String) (vs : List (String × PyVal))
    (hv : ∀ kv ∈ vs, noSemi kv.1 ∧ noSemi (pyStr kv.2)) :
    noSemi (genSets mode vs) := by
  unfold genSets
  split
  · refine noSemi_append (noSemi_append (by decide) (noSemi_pyJoin (by decide) ?_))
      (by decide)
    intro x hx
    rcases List.mem_map.mp hx with ⟨kv, hkm, rfl⟩
    exact noSemi_append (noSemi_append (hv kv hkm).1 (by decide)) (hv kv hkm).2
  · decide

theorem noSemi_genWheres (cs : List (String × PyVal))
    (hc : ∀ kv ∈ cs, noSemi kv.1 ∧ noSemi (pyStr kv.2)) :
    noSemi (genWheres cs) := by
  unfold genWheres
  split
  · decide
  · refine noSemi_append (noSemi_append (by decide) (noSemi_pyJoin (by decide) ?_))
      (by decide)
    intro x hx
    rcases List.mem_map.mp hx with ⟨kv, hkm, rfl⟩
    exact noSemi_append (noSemi_append (hc kv hkm).1 (by decide)) (hc kv hkm).2

theorem noSemi_genOrder (ob : String) (hob : noSemi ob) :
    noSemi (genOrder ob) := by
  unfold genOrder
  split
  · decide
  · exact noSemi_append (noSemi_append (by decide) hob) (by decide)

theorem noSemi_genDesc (d : Bool) : noSemi (genDesc d) := by
  unfold genDesc
  split
  · decide
  · decide

theorem noSemi_genLimit (lim : Option Int) : noSemi (genLimit lim) := by
  cases lim with
  | none => decide
  | some n =>
    show noSemi (if n = 0 then "" else "LIMIT " ++ toString n ++ " ")
    split
    · decide
    · exact noSemi_append (noSemi_append (by decide) (noSemi_toString_int n)) (by decide)

theorem noSemi_genOffset (off : Option Int) : noSemi (genOffset off) := by
  cases off with
  | none => decide
  | some n =>
    show noSemi (if n = 0 then "" else "OFFSET " ++ toString n ++ " ")
    split
    · decide
    · exact noSemi_append (noSemi_append (by decide) (noSemi_toString_int n)) (by decide)

theorem generic_endsWithOneSemi (t mode ob : String) (cs vals : List (String × PyVal))
    (cols : List String) (lim off : Option Int) (d : Bool)
    (ht : noSemi t) (hob : noSemi ob) (hmode : noSemi mode)
    (hcols : ∀ c ∈ cols, noSemi c)
    (hcs : ∀ kv ∈ cs, noSemi kv.1 ∧ noSemi (pyStr kv.2))
    (hvals : ∀ kv ∈ vals, noSemi kv.1 ∧ noSemi (pyStr kv.2)) :
    endsWithOneSemi (_generic t mode cs ob lim off d cols vals) = true := by
  unfold _generic
  apply endsWithOneSemi_rstrip
  repeat' apply noSemi_append
  exacts [hmode, by decide, noSemi_genAttributes t mode cols ht hcols,
    noSemi_genFrom mode, ht, by decide, noSemi_genSets mode vals hvals,
    noSemi_genWheres cs hcs, noSemi_genOrder ob hob, noSemi_genDesc d,
    noSemi_genLimit lim, noSemi_genOffset off]

theorem endsWithOneSemi_append_wrap_semi (A : String) (v : List PyVal) :
    endsWithOneSemi (A ++ wrap v ++ ";") = true := by
  have hd : (A ++ wrap v ++ ";").data.reverse =
      ';' :: ')' :: ((pyJoin ", " (v.map pyRepr)).data.reverse ++
        ('(' :: A.data.reverse)) := by
    simp [wrap, String.data_append, List.reverse_append, List.append_assoc]
  exact endsWithOneSemi_of_shape hd (by decide) (by decide)

theorem endsWithOneSemi_mid_append_wrap_semi (A B : String) (v : List PyVal) :
    endsWithOneSemi (A ++ (B ++ wrap v) ++ ";") = true := by
  have hd : (A ++ (B ++ wrap v) ++ ";").data.reverse =
      ';' :: ')' :: ((pyJoin ", " (v.map pyRepr)).data.reverse ++
        ('(' :: (B.data.reverse ++ A.data.reverse))) := by
    simp [wrap, String.data_append, List.reverse_append, List.append_assoc]
  exact endsWithOneSemi_of_shape hd (by decide) (by decide)

theorem addColumn_endsWithOneSemi (t c : String) (args : StrOrSeq)
    (h : cleanTail (strOrSeqJoin args) = true) :
    endsWithOneSemi (addColumn t c args) = true := by
  cases hjr : (strOrSeqJoin args).data.reverse with
  | nil =>
    unfold cleanTail at h
    rw [hjr] at h
    cases h
  | cons d rest =>
    unfold cleanTail at h
    rw [hjr] at h
    simp only [Bool.and_eq_true, Bool.not_eq_true', decide_eq_false_iff_not] at h
    obtain ⟨h1, h2⟩ := h
    have hd : (addColumn t c args).data.reverse =
        ';' :: d ::
          (rest ++ ("ALTER TABLE " ++ t ++ " ADD COLUMN '" ++ c ++ "' ").data.reverse) := by
      simp [addColumn, String.data_append, List.reverse_append, List.append_assoc, hjr]
    exact endsWithOneSemi_of_shape hd h1 h2

/-! ## Claim C4 -/

/-- C4 (counterexample): the claim says every returned statement has no
whitespace immediately before its final semicolon for all inputs of the
accepted shapes; `addColumn("t", "c", "")` returns
`ALTER TABLE t ADD COLUMN 'c' ;`, which has a space before the semicolon. -/
theorem addColumn_space_before_semicolon :
    addColumn "t" "c" (.str "") = "ALTER TABLE t ADD COLUMN 'c' ;"
    ∧ endsWithOneSemi (addColumn "t" "c" (.str "")) = false :=
  ⟨by decide, by decide⟩

/-- C4 (amended): every returned string ends with exactly one semicolon and
no whitespace immediately before it — unconditionally for the getTables
constant, getColumns, createTable and insert (whenever it returns a string);
for addColumn provided the (space-joined) args string is nonempty and ends
in neither whitespace nor a semicolon; and for select/update/delete provided
the table name, orderBy, column names, and the condition/set keys and their
rendered values contain no semicolon character. -/
theorem statements_end_with_one_clean_semicolon :
    (endsWithOneSemi getTables = true)
    ∧ (∀ name : String, endsWithOneSemi (getColumns name) = true)
    ∧ (∀ (name : String) (fields : List (String × StrOrSeq)),
        endsWithOneSemi (createTable name fields) = true)
    ∧ (∀ (t : String) (v : PyValues) (c : PyCols) (s : String),
        insert t v c = .ok s → endsWithOneSemi s = true)
    ∧ (∀ (t c : String) (args : StrOrSeq), cleanTail (strOrSeqJoin args) = true →
        endsWithOneSemi (addColumn t c args) = true)
    ∧ (∀ (t : String) (cs : List (String × PyVal)) (cols : List String)
        (ob : String) (lim off : Option Int) (d : Bool),
        noSemi t → noSemi ob → (∀ c ∈ cols, noSemi c) →
        (∀ kv ∈ cs, noSemi kv.1 ∧ noSemi (pyStr kv.2)) →
        endsWithOneSemi (select t cs cols ob lim off d) = true)
    ∧ (∀ (t : String) (vs cs : List (String × PyVal)) (ob : String)
        (lim off : Option Int) (d : Bool),
        noSemi t → noSemi ob →
        (∀ kv ∈ cs, noSemi kv.1 ∧ noSemi (pyStr kv.2)) →
        (∀ kv ∈ vs, noSemi kv.1 ∧ noSemi (pyStr kv.2)) →
        endsWithOneSemi (update t vs cs ob lim off d) = true)
    ∧ (∀ (t : String) (cs : List (String × PyVal)) (ob : String)
        (lim off : Option Int) (d : Bool),
        noSemi t → noSemi ob →
        (∀ kv ∈ cs, noSemi kv.1 ∧ noSemi (pyStr kv.2)) →
        endsWithOneSemi (delete t cs ob lim off d) = true) := by
  refine ⟨by decide, ?_, ?_, ?_, ?_, ?_, ?_, ?_⟩
  · intro name
    exact endsWithOneSemi_close_paren _
  · intro name fields
    unfold createTable
    exact endsWithOneSemi_close_paren _
  · intro t v c s h
    cases c with
    | lst l => exact absurd h (by simp [insert, _insertDict1])
    | tup l =>
      have hx : insert t v (.tup l) =
          .ok ("INSERT INTO " ++ t ++ " " ++ wrap (pyColsIter (PyCols.tup l)) ++
            " VALUES" ++ wrap (pyIter v) ++ ";") := rfl
      rw [hx] at h
      obtain rfl := Except.ok.inj h
      exact endsWithOneSemi_append_wrap_semi _ _
    | none =>
      cases v with
      | seq vs =>
        have hx : insert t (.seq vs) PyCols.none =
            .ok ("INSERT INTO " ++ t ++ " " ++
              ("VALUES" ++ wrap (pyIter (.seq vs))) ++ ";") := rfl
        rw [hx] at h
        obtain rfl := Except.ok.inj h
        exact endsWithOneSemi_mid_append_wrap_semi _ _ _
      | map kvs =>
        have hx : insert t (.map kvs) PyCols.none =
            .ok ("INSERT INTO " ++ t ++ " " ++
              (wrap (pyDictKeys (.map kvs)) ++ " VALUES" ++
                wrap (pyDictValues (.map kvs))) ++ ";") := rfl
        rw [hx] at h
        obtain rfl := Except.ok.inj h
        exact endsWithOneSemi_mid_append_wrap_semi _ _ _
  · exact addColumn_endsWithOneSemi
  · intro t cs cols ob lim off d ht hob hcols hcs
    exact generic_endsWithOneSemi t "SELECT" ob cs [] cols lim off d ht hob
      (by decide) hcols hcs (fun kv hk => absurd hk (List.not_mem_nil _))
  · intro t vs cs ob lim off d ht hob hcs hvs
    exact generic_endsWithOneSemi t "UPDATE" ob cs vs [] lim off d ht hob
      (by decide) (fun c hc => absurd hc (List.not_mem_nil _)) hcs hvs
  · intro t cs ob lim off d ht hob hcs
    exact generic_endsWithOneSemi t "DELETE" ob cs [] [] lim off d ht hob
      (by decide) (fun c hc => absurd hc (List.not_mem_nil _)) hcs
      (fun kv hk => absurd hk (List.not_mem_nil _))

/-- C4 (witness): the hypothesized parts of the amended theorem applied at
concrete inputs. -/
theorem statements_end_with_one_clean_semicolon_witness :
    endsWithOneSemi "INSERT INTO t VALUES(1);" = true
    ∧ endsWithOneSemi (addColumn "t" "c" (.str "INT")) = true
    ∧ endsWithOneSemi
        (select "t" [("id", PyVal.int 23)] ["name"] "x" (Option.some 1) (Option.some 2) true) = true
    ∧ endsWithOneSemi
        (update "t" [("salary", PyVal.int 100)] [("id", PyVal.int 23)] ""
          Option.none Option.none false) = true
    ∧ endsWithOneSemi
        (delete "t" [("id", PyVal.int 23)] "" Option.none Option.none false) = true :=
  ⟨statements_end_with_one_clean_semicolon.2.2.2.1 "t" (.seq [.int 1]) PyCols.none
      "INSERT INTO t VALUES(1);" rfl,
   statements_end_with_one_clean_semicolon.2.2.2.2.1 "t" "c" (.str "INT") (by decide),
   statements_end_with_one_clean_semicolon.2.2.2.2.2.1 "t" [("id", PyVal.int 23)]
      ["name"] "x" (Option.some 1) (Option.some 2) true (by decide) (by decide)
      (by decide) (by decide),
   statements_end_with_one_clean_semicolon.2.2.2.2.2.2.1 "t"
      [("salary", PyVal.int 100)] [("id", PyVal.int 23)] "" Option.none Option.none
      false (by decide) (by decide) (by decide) (by decide),
   statements_end_with_one_clean_semicolon.2.2.2.2.2.2.2 "t" [("id", PyVal.int 23)]
      "" Option.none Option.none false (by decide) (by decide) (by decide)⟩

end Py2Sqlite
